import Mathlib

/-!
Verification development for the Sheldon bot engine (src/bot.py, src/database.py).

The stateful Python/SQL code is shallowly embedded as pure Lean functions:
the Postgres rows become Lean structures, every database call becomes an
explicit state-passing function, timestamps are integers (seconds), and the
external completion / image-generation service is opaque (its invocation is
recorded as a symbolic reply constructor, its result is a free input).
The fixed regular-expression table SETTINGS_PATTERNS of bot.py is compiled,
pattern by pattern, into an executable token matcher (literal / \s+ / (\d+)),
with top-level alternations expanded into branches; this preserves exactly
the two observable facts the code uses: whether a pattern matches somewhere
in the text, and the value of the (\d+) capture group of the ignore_me rows.
-/

/-- Lower-casing used before matching (the Python patterns carry re.IGNORECASE;
all pattern literals are lower case, so lowering the text once is equivalent).
Handles ASCII A-Z and the Cyrillic letters appearing in the table. -/
def rlowerChar (c : Char) : Char :=
  let n := c.toNat
  if 65 ≤ n ∧ n ≤ 90 then Char.ofNat (n + 32)
  else if 1040 ≤ n ∧ n ≤ 1071 then Char.ofNat (n + 32)
  else if n = 1025 then Char.ofNat 1105
  else c

def rlowerStr (s : String) : String := String.mk (s.toList.map rlowerChar)

/-- Python \s (the whitespace characters relevant to chat text). -/
def isWsChar (c : Char) : Bool :=
  c == ' ' || c == '\t' || c == '\n' || c == '\r' || c.toNat == 11 || c.toNat == 12

/-- Python \d (ASCII digits; the table's inputs are chat text). -/
def isDigitChar (c : Char) : Bool := '0' ≤ c && c ≤ '9'

def digitsToNat (ds : List Char) : Nat :=
  ds.foldl (fun a c => a * 10 + (c.toNat - 48)) 0

/-- One token of a compiled pattern: a literal string, a \s+ gap, or the
(\d+) capture group. -/
inductive RTok where
  | lit (s : String)
  | ws
  | num
deriving DecidableEq

/-- Match a token sequence at the beginning of the character list; return
the value of the (\d+) group when the sequence contains one.  \s+ and \d+
are consumed greedily, which is equivalent here because no token sequence of
the table continues with a whitespace or digit after them. -/
def matchToks : List RTok → List Char → Option (Option Nat)
  | [], _ => some none
  | RTok.lit s :: rest, cs =>
      if s.toList.isPrefixOf cs then matchToks rest (cs.drop s.toList.length)
      else none
  | RTok.ws :: rest, cs =>
      let sp := cs.takeWhile isWsChar
      if sp.isEmpty then none else matchToks rest (cs.drop sp.length)
  | RTok.num :: rest, cs =>
      let ds := cs.takeWhile isDigitChar
      if ds.isEmpty then none
      else
        match matchToks rest (cs.drop ds.length) with
        | some _ => some (some (digitsToNat ds))
        | none => none

/-- re.search of one branch: try to match at each start position, leftmost
first. -/
def branchSearch (b : List RTok) : List Char → Option (Option Nat)
  | [] => matchToks b []
  | c :: rest =>
      match matchToks b (c :: rest) with
      | some cap => some cap
      | none => branchSearch b rest

/-- A compiled pattern: the disjunction of its branches (top-level regex
alternations are expanded; only existence of a match and the single
capture group are observed by the code, so branch order is immaterial for
the one-branch capturing patterns). -/
def Pattern := List (List RTok)

def patSearch (p : Pattern) (s : String) : Option (Option Nat) :=
  p.foldl
    (fun acc br =>
      match acc with
      | some c => some c
      | none => branchSearch br (rlowerStr s).toList)
    none

inductive SettingsAction where
  | humor_up
  | humor_down
  | freq_up
  | freq_down
  | length_down
  | length_up
  | ignore_me
deriving DecidableEq

/-- Branch helper: "head\s+(w1|w2|...)" expands to one branch per word. -/
def headAlt (head : String) (ws : List String) : Pattern :=
  ws.map (fun w => [RTok.lit head, RTok.ws, RTok.lit w])

/-- SETTINGS_PATTERNS of bot.py (lines 93-129), compiled pattern by pattern,
in the same order, with the same actions and magnitudes. -/
def SETTINGS_PATTERNS : List (Pattern × SettingsAction × Int) :=
  [ (headAlt ("шути") [("чаще"), ("больше"), ("активнее"), ("веселее"), ("смешнее"), ("лучше")],
      SettingsAction.humor_up, 2),
    (headAlt ("больше") [("юмора"), ("шуток"), ("приколов")], SettingsAction.humor_up, 2),
    (headAlt ("будь") [("смешнее"), ("веселее"), ("прикольнее")], SettingsAction.humor_up, 2),
    (headAlt ("шути") [("реже"), ("меньше"), ("потише"), ("потиш")], SettingsAction.humor_down, 2),
    (headAlt ("меньше") [("юмора"), ("шуток"), ("приколов")], SettingsAction.humor_down, 2),
    ([[RTok.lit ("плохая"), RTok.ws, RTok.lit ("шутка")],
      [RTok.lit ("не смешная"), RTok.ws, RTok.lit ("шутка")],
      [RTok.lit ("несмешная"), RTok.ws, RTok.lit ("шутка")]], SettingsAction.humor_down, 1),
    ([[RTok.lit ("не"), RTok.ws, RTok.lit ("смешно")]], SettingsAction.humor_down, 1),
    (headAlt ("пиши") [("чаще"), ("активнее"), ("больше")], SettingsAction.freq_up, 3),
    (headAlt ("отвечай") [("чаще"), ("активнее")], SettingsAction.freq_up, 3),
    ([[RTok.lit ("пиши"), RTok.ws, RTok.lit ("реже")]], SettingsAction.freq_down, 5),
    ([[RTok.lit ("заткнись")], [RTok.lit ("помолчи")], [RTok.lit ("замолчи")]],
      SettingsAction.freq_down, 5),
    ([[RTok.lit ("устал"), RTok.ws, RTok.lit ("от"), RTok.ws, RTok.lit ("тебя")]],
      SettingsAction.freq_down, 5),
    ([[RTok.lit ("отвечай"), RTok.ws, RTok.lit ("реже")]], SettingsAction.freq_down, 5),
    (headAlt ("пиши") [("короче"), ("меньше"), ("кратче"), ("лаконичнее")],
      SettingsAction.length_down, 1),
    (headAlt ("отвечай") [("короче"), ("кратко"), ("меньше")], SettingsAction.length_down, 1),
    ([[RTok.lit ("слишком"), RTok.ws, RTok.lit ("длинно")],
      [RTok.lit ("много"), RTok.ws, RTok.lit ("текста")],
      [RTok.lit ("много"), RTok.ws, RTok.lit ("букв")]], SettingsAction.length_down, 1),
    (headAlt ("пиши") [("подробнее"), ("больше"), ("развёрнуто"), ("развернуто")],
      SettingsAction.length_up, 1),
    (headAlt ("отвечай") [("подробнее"), ("развёрнуто")], SettingsAction.length_up, 1),
    ([[RTok.lit ("не"), RTok.ws, RTok.lit ("обращайся"), RTok.ws, RTok.lit ("ко"), RTok.ws,
       RTok.lit ("мне"), RTok.ws, RTok.num, RTok.ws, RTok.lit ("дн")]],
      SettingsAction.ignore_me, 0),
    ([[RTok.lit ("игнорируй"), RTok.ws, RTok.lit ("меня"), RTok.ws, RTok.num, RTok.ws,
       RTok.lit ("дн")]], SettingsAction.ignore_me, 0),
    ([[RTok.lit ("не"), RTok.ws, RTok.lit ("трогай"), RTok.ws, RTok.lit ("меня"), RTok.ws,
       RTok.num, RTok.ws, RTok.lit ("дн")]], SettingsAction.ignore_me, 0),
    ([[RTok.lit ("оставь"), RTok.ws, RTok.lit ("меня"), RTok.ws, RTok.lit ("в"), RTok.ws,
       RTok.lit ("покое"), RTok.ws, RTok.num, RTok.ws, RTok.lit ("дн")]],
      SettingsAction.ignore_me, 0) ]

/-- True iff some entry of the settings table matches the text (what the
code observes through m = pattern.search(text)). -/
def settingsMatched (text : String) : Bool :=
  SETTINGS_PATTERNS.any (fun e => (patSearch e.1 text).isSome)

/-! ## Data model (database.py tables, restricted to one chat for the
per-chat handlers; get_chats_due_for_poke below works on a list of rows). -/

/-- One row of the users table (user_id is the key of the map below;
the bio column is named bio_text here). -/
structure UserRec where
  username : String
  bio_text : String
deriving DecidableEq

/-- One row of chat_settings, timestamps as integer seconds. -/
structure ChatRow where
  chat_id : Int
  message_count : Int
  reply_frequency : Int
  humor_level : Int
  max_response_lines : Int
  last_activity : Int
  next_poke_at : Int
deriving DecidableEq

/-- The store, as seen by the handlers of a single chat: the users table,
this chat's settings row (lazily created rows start from the defaults of
_ensure_chat / the schema), the chat_members rows of this chat, the
user_ignore rows of this chat (user_id to ignore_until), and the messages
table of this chat. -/
structure DBState where
  users : Int → Option UserRec
  chat : ChatRow
  members : List Int
  ignoreUntil : Int → Option Int
  msgs : List (Int × String)

/-! ## database.py operations -/

/-- upsert_user: insert with empty bio, or update only the username
(ON CONFLICT DO UPDATE SET username = EXCLUDED.username); the caller-side
`username or ""` is the getD. -/
def upsert_user (users : Int → Option UserRec) (uid : Int) (uname : Option String) :
    Int → Option UserRec :=
  fun u =>
    if u = uid then
      match users uid with
      | some r => some { r with username := uname.getD ("") }
      | none => some { username := uname.getD (""), bio_text := ("") }
    else users u

/-- set_user_bio: UPDATE users SET bio = $1 (no row, no effect). -/
def set_user_bio (users : Int → Option UserRec) (uid : Int) (b : String) :
    Int → Option UserRec :=
  fun u =>
    if u = uid then (users uid).map (fun r => { r with bio_text := b })
    else users u

/-- add_chat_member: INSERT ... ON CONFLICT DO NOTHING. -/
def add_chat_member (ms : List Int) (uid : Int) : List Int :=
  if uid ∈ ms then ms else ms ++ [uid]

/-- save_message: append, then keep only the newest 100 rows of the chat. -/
def save_message (msgs : List (Int × String)) (uid : Int) (text : String) :
    List (Int × String) :=
  let l := msgs ++ [(uid, text)]
  l.drop (l.length - 100)

/-- increment_and_get: atomic message_count += 1 RETURNING
(message_count, reply_frequency), plus the updated state. -/
def increment_and_get (st : DBState) : (Int × Int) × DBState :=
  let c := st.chat.message_count + 1
  ((c, st.chat.reply_frequency), { st with chat := { st.chat with message_count := c } })

def reset_message_count (st : DBState) : DBState :=
  { st with chat := { st.chat with message_count := 0 } }

/-- set_humor_level: level = max(1, min(10, level)). -/
def set_humor_level (st : DBState) (level : Int) : DBState :=
  { st with chat := { st.chat with humor_level := max 1 (min 10 level) } }

/-- set_max_response_lines: lines = max(1, min(10, lines)). -/
def set_max_response_lines (st : DBState) (lines : Int) : DBState :=
  { st with chat := { st.chat with max_response_lines := max 1 (min 10 lines) } }

/-- increase_reply_frequency: reply_frequency += delta RETURNING it. -/
def increase_reply_frequency (st : DBState) (delta : Int) : Int × DBState :=
  let f := st.chat.reply_frequency + delta
  (f, { st with chat := { st.chat with reply_frequency := f } })

/-- The raw UPDATE chat_settings SET reply_frequency used by the freq_up
branch of _detect_and_apply_settings and by cmd_frequency. -/
def set_reply_frequency_raw (st : DBState) (f : Int) : DBState :=
  { st with chat := { st.chat with reply_frequency := f } }

/-- set_user_ignore: upsert of (chat, user) to ignore_until. -/
def set_user_ignore (st : DBState) (uid : Int) (untilTs : Int) : DBState :=
  { st with ignoreUntil := fun u => if u = uid then some untilTs else st.ignoreUntil u }

/-- is_user_ignored: a row with ignore_until > NOW() exists. -/
def is_user_ignored (st : DBState) (uid : Int) (now : Int) : Bool :=
  match st.ignoreUntil uid with
  | some t => now < t
  | none => false

def touch_last_activity (st : DBState) (now : Int) : DBState :=
  { st with chat := { st.chat with last_activity := now } }

/-- A freshly created chat_settings row (_ensure_chat defaults plus the
schema defaults, created at time t). -/
def freshChat (cid : Int) (t : Int) : ChatRow :=
  { chat_id := cid, message_count := 0, reply_frequency := 5, humor_level := 5,
    max_response_lines := 3, last_activity := t, next_poke_at := t }

/-! ## _detect_and_apply_settings (bot.py lines 132-199) -/

/-- Day-count extraction of the ignore_me branch:
`int(m.group(1)) if m.lastindex and m.group(1) else 1`, then clamp [1,30]. -/
def ignoreDays (cap : Option Nat) : Int :=
  let days0 : Int := match cap with | some n => (n : Int) | none => 1
  max 1 (min 30 days0)

/-- Seconds of timedelta(days=1). -/
def DAY_SECONDS : Int := 86400

/-- One matched table entry applied to the store, returning the new store
and the human-readable description appended to `applied`. -/
def applyAction (a : SettingsAction) (delta : Int) (cap : Option Nat)
    (uid : Int) (now : Int) (st : DBState) : DBState × String :=
  match a with
  | SettingsAction.humor_up =>
      let new_val := min 10 (st.chat.humor_level + delta)
      (set_humor_level st new_val, ("уровень юмора → ") ++ toString new_val ++ ("/10"))
  | SettingsAction.humor_down =>
      let new_val := max 1 (st.chat.humor_level - delta)
      (set_humor_level st new_val, ("уровень юмора → ") ++ toString new_val ++ ("/10"))
  | SettingsAction.freq_up =>
      let new_val := max 1 (st.chat.reply_frequency - delta)
      (set_reply_frequency_raw st new_val,
        ("частота ответов → каждые ") ++ toString new_val ++ (" сообщений"))
  | SettingsAction.freq_down =>
      let r := increase_reply_frequency st delta
      (r.2, ("частота ответов → каждые ") ++ toString r.1 ++ (" сообщений"))
  | SettingsAction.length_down =>
      let new_val := max 1 (st.chat.max_response_lines - delta)
      (set_max_response_lines st new_val,
        ("длина ответа → ") ++ toString new_val ++ (" предл."))
  | SettingsAction.length_up =>
      let new_val := min 10 (st.chat.max_response_lines + delta)
      (set_max_response_lines st new_val,
        ("длина ответа → ") ++ toString new_val ++ (" предл."))
  | SettingsAction.ignore_me =>
      let days := ignoreDays cap
      (set_user_ignore st uid (now + days * DAY_SECONDS),
        ("не буду обращаться к тебе ") ++ toString days ++ (" дн."))

/-- The scan loop: every table entry is tested against the full text; each
match mutates the store and appends its description. -/
def detectGo : List (Pattern × SettingsAction × Int) → String → Int → Int →
    DBState → List String → DBState × List String
  | [], _, _, _, st, acc => (st, acc)
  | e :: rest, text, uid, now, st, acc =>
      match patSearch e.1 text with
      | none => detectGo rest text uid now st acc
      | some cap =>
          let r := applyAction e.2.1 e.2.2 cap uid now st
          detectGo rest text uid now r.1 (acc ++ [r.2])

/-- dict.fromkeys: deduplicate keeping the first occurrence, in order
(an element is kept iff it did not already occur among `seen`). -/
def dedupFirstGo (seen : List String) : List String → List String
  | [] => []
  | x :: xs =>
      if x ∈ seen then dedupFirstGo seen xs
      else x :: dedupFirstGo (seen ++ [x]) xs

def dedupFirst (l : List String) : List String := dedupFirstGo [] l

/-- _detect_and_apply_settings: scan, apply, and build the single
acknowledgment reply, or none when nothing matched. -/
def _detect_and_apply_settings (text : String) (uid : Int) (now : Int)
    (st : DBState) : Option (String × DBState) :=
  let r := detectGo SETTINGS_PATTERNS text uid now st []
  if r.2 = [] then none
  else
    let changes := String.intercalate (", ") (dedupFirst r.2)
    some (("Принято. Скорректировал алгоритмы: ") ++ changes ++
      (". Надеюсь, это удовлетворит ваши социальные требования."), r.1)

/-! ## Inbound messages and mention detection (bot.py) -/

/-- The engine's own identity (bot.get_me()). -/
structure BotInfo where
  id : Int
  username : String
deriving DecidableEq

/-- A message entity (offset/length in code points, as Telegram uses). -/
structure Entity where
  etype : String
  offset : Nat
  length : Nat
deriving DecidableEq

/-- The reply_to_message fields the handler reads. -/
structure ReplyTo where
  from_id : Option Int
  text : String
deriving DecidableEq

/-- An inbound group text message, restricted to the fields on_group_message
reads. from_username none models a user without a user name. -/
structure GMessage where
  from_id : Int
  from_is_bot : Bool
  from_username : Option String
  text : String
  entities : List Entity
  reply_to : Option ReplyTo
deriving DecidableEq

/-- text[entity.offset : entity.offset + entity.length] (code-point slice). -/
def sliceText (text : String) (off len : Nat) : String :=
  String.mk ((text.toList.drop off).take len)

/-- One entity test of _is_direct_mention:
entity.type == "mention" and mention.lstrip("@").lower() == bot username. -/
def mentionEntityMatches (b : BotInfo) (text : String) (e : Entity) : Bool :=
  e.etype == ("mention") &&
    rlowerStr (String.mk ((sliceText text e.offset e.length).toList.dropWhile
      (fun c => c = '@'))) == rlowerStr b.username

/-- _is_direct_mention (bot.py lines 392-406): a reply to the engine's own
message, or a mention entity naming the engine. -/
def _is_direct_mention (b : BotInfo) (msg : GMessage) : Bool :=
  (match msg.reply_to with
   | some rt => rt.from_id == some b.id
   | none => false)
  || msg.entities.any (fun e => mentionEntityMatches b msg.text e)

/-- Substring test ("досье" in s). -/
def strContains (hay needle : String) : Bool :=
  strContainsGo needle.toList hay.toList
where
  strContainsGo (n : List Char) : List Char → Bool
    | [] => n.isPrefixOf []
    | c :: rest => n.isPrefixOf (c :: rest) || strContainsGo n rest

/-- The bio-collection path of on_group_message (lines 792-803): the message
replies to an engine message whose text contains "досье". -/
def bioReplyPath (b : BotInfo) (msg : GMessage) : Bool :=
  match msg.reply_to with
  | some rt => (rt.from_id == some b.id) && strContains (rlowerStr rt.text) ("досье")
  | none => false

/-- The replies a group-message handler can emit; sheldon stands for the
(opaque) completion-service reply of _ask_sheldon. -/
inductive Reply where
  | bioSaved
  | settingsAck (s : String)
  | sheldon
deriving DecidableEq

/-- The bookkeeping prefix of on_group_message (lines 786-789): upsert_user,
add_chat_member, touch_last_activity, save_message. -/
def observeMessage (msg : GMessage) (now : Int) (st : DBState) : DBState :=
  let st1 := { st with users := upsert_user st.users msg.from_id msg.from_username }
  let st2 := { st1 with members := add_chat_member st1.members msg.from_id }
  let st3 := touch_last_activity st2 now
  { st3 with msgs := save_message st3.msgs msg.from_id msg.text }

/-- on_group_message (bot.py lines 776-823): bookkeeping, bio collection,
natural-language settings, direct mention, then the counter cadence. -/
def on_group_message (b : BotInfo) (msg : GMessage) (now : Int) (st : DBState) :
    List Reply × DBState :=
  if msg.from_is_bot then ([], st)
  else
    let st1 := observeMessage msg now st
    if bioReplyPath b msg then
      ([Reply.bioSaved], { st1 with users := set_user_bio st1.users msg.from_id msg.text })
    else
      match _detect_and_apply_settings msg.text msg.from_id now st1 with
      | some r => ([Reply.settingsAck r.1], r.2)
      | none =>
        if _is_direct_mention b msg then
          ([Reply.sheldon], reset_message_count st1)
        else
          let r := increment_and_get st1
          if r.1.2 ≤ r.1.1 then ([Reply.sheldon], reset_message_count r.2)
          else ([], r.2)

/-- Feed a list of messages through the handler, recording for each whether
it produced any reply. -/
def runMessages (b : BotInfo) : List GMessage → Int → DBState → List Bool × DBState
  | [], _, st => ([], st)
  | m :: rest, now, st =>
      let r := on_group_message b m now st
      let rec' := runMessages b rest now r.2
      (decide (r.1 ≠ []) :: rec'.1, rec'.2)

/-- cmd_frequency (bot.py lines 864-896), after the admin check: a numeric
argument below 1 is rejected without touching the store. -/
def cmd_frequency (st : DBState) (n : Int) : DBState :=
  if n < 1 then st else set_reply_frequency_raw st n

/-! ## get_chats_due_for_poke (database.py lines 409-418) -/

/-- WHERE next_poke_at <= NOW() AND last_activity < next_poke_at (the SELECT
list projects three columns; the projection does not change which chats are
returned, so the filtered rows are kept whole). -/
def get_chats_due_for_poke (rows : List ChatRow) (now : Int) : List ChatRow :=
  rows.filter (fun r => decide (r.next_poke_at ≤ now ∧ r.last_activity < r.next_poke_at))

/-! ## Daily image-generation counter (database.py lines 272-301) -/

def IMAGE_GEN_DAILY_LIMIT : Int := 10

/-- The image_gen_log table: calendar date to count. -/
def ImgLog := Int → Option Int

/-- get_image_gen_count_today: row["count"] if row else 0. -/
def get_image_gen_count (log : ImgLog) (today : Int) : Int :=
  (log today).getD 0

/-- increment_image_gen_count: INSERT (CURRENT_DATE, 1) ON CONFLICT DO
UPDATE SET count = count + 1 RETURNING count. -/
def increment_image_gen_count (log : ImgLog) (today : Int) : Int × ImgLog :=
  match log today with
  | none => (1, fun d => if d = today then some 1 else log d)
  | some c => (c + 1, fun d => if d = today then some (c + 1) else log d)

/-- image_gen_allowed: today's count is strictly below the daily limit. -/
def image_gen_allowed (log : ImgLog) (today : Int) : Bool :=
  get_image_gen_count log today < IMAGE_GEN_DAILY_LIMIT

/-- n consecutive increments on the same date. -/
def incrementTimes : Nat → ImgLog → Int → ImgLog
  | 0, log, _ => log
  | n + 1, log, today => incrementTimes n (increment_image_gen_count log today).2 today

/-! ## Proactive poke target selection (bot.py lines 561-596)

The two coin tosses (random.random() < 0.6 and < 0.55) and the two uniform
random.choice draws are modelled as explicit inputs: a Bool for each coin
and an index for each draw (choice l i picks l[i % len l], so every member
is reachable, matching a uniform draw over the pool). -/

/-- get_chat_members: chat_members joined with users. -/
def get_chat_members (st : DBState) : List (Int × UserRec) :=
  st.members.filterMap (fun u => (st.users u).map (fun r => (u, r)))

/-- get_members_without_bio: joined members whose bio is empty (the column
is NOT NULL, so the SQL test bio IS NULL OR bio = '' is bio = ''). -/
def get_members_without_bio (st : DBState) : List (Int × UserRec) :=
  (get_chat_members st).filter (fun m => m.2.bio_text == (""))

/-- Pool (a): no-bio members, ignored users filtered out. -/
def pokePoolA (st : DBState) (now : Int) : List (Int × UserRec) :=
  (get_members_without_bio st).filter (fun m => !(is_user_ignored st m.1 now))

/-- Pool (b): members with a user name, ignored users filtered out. -/
def pokePoolB (st : DBState) (now : Int) : List (Int × UserRec) :=
  (get_chat_members st).filter
    (fun m => !(m.2.username == ("")) && !(is_user_ignored st m.1 now))

/-- random.choice over a nonempty pool, driven by the index input. -/
def choice (l : List (Int × UserRec)) (i : Nat) : Int × UserRec :=
  l.getD (i % l.length) (0, { username := (""), bio_text := ("") })

/-- What one due poke delivers. -/
inductive PokeOutcome where
  | bioQuestion (uid : Int) (uname : String)
  | personalQuestion (uid : Int) (uname : String)
  | generic
deriving DecidableEq

/-- The target-selection block of _scheduler_loop for one due chat:
first branch fires when pool (a) is nonempty and coin1 (< 0.6) — but sends
only when the drawn member has a user name; the second when nothing was
sent, pool (b) is nonempty and coin2 (< 0.55); otherwise the generic
silence breaker is sent. -/
def pokeSelect (st : DBState) (now : Int) (coin1 : Bool) (idx1 : Nat)
    (coin2 : Bool) (idx2 : Nat) : PokeOutcome :=
  let poolA := pokePoolA st now
  let poolB := pokePoolB st now
  let first : Option PokeOutcome :=
    if !poolA.isEmpty && coin1 then
      let t := choice poolA idx1
      if !(t.2.username == ("")) then some (PokeOutcome.bioQuestion t.1 t.2.username)
      else none
    else none
  match first with
  | some o => o
  | none =>
      if !poolB.isEmpty && coin2 then
        let t := choice poolB idx2
        PokeOutcome.personalQuestion t.1 t.2.username
      else PokeOutcome.generic

/-! ## The image-edit branch of on_photo (bot.py lines 672-715) -/

/-- The outbound messages of the image-edit branch. -/
inductive PhotoReply where
  | limitExhausted (used : Int)
  | waiting (remaining : Int)
  | resultPhoto (countNow : Int)
  | genError
deriving DecidableEq

/-- The edit path of on_photo, reached when the caption was classified as
an edit request: the daily-limit gate, the progress message (later deleted),
then — only if DALL-E returned a usable URL — the counter increment and the
result photo; a failed generation produces the error reply and leaves the
counter untouched. gen is the opaque result of _generate_image. -/
def photoEditFlow (log : ImgLog) (today : Int) (gen : Option String) :
    List PhotoReply × ImgLog :=
  if !(image_gen_allowed log today) then
    ([PhotoReply.limitExhausted (get_image_gen_count log today)], log)
  else
    let remaining := IMAGE_GEN_DAILY_LIMIT - get_image_gen_count log today
    match gen with
    | some _ =>
        let r := increment_image_gen_count log today
        ([PhotoReply.waiting remaining,
          PhotoReply.resultPhoto (get_image_gen_count r.2 today)], r.2)
    | none => ([PhotoReply.waiting remaining, PhotoReply.genError], log)

/-! ## Concrete instances used by the scenario conjuncts and witnesses -/

def b0 : BotInfo := { id := 999, username := ("sheldon_bot") }

def initialState : DBState :=
  { users := fun _ => none, chat := freshChat (-100) 0, members := [],
    ignoreUntil := fun _ => none, msgs := [] }

/-- A plain chat message matching no settings pattern and mentioning no one. -/
def plainMsg : GMessage :=
  { from_id := 1, from_is_bot := false, from_username := some ("alice"),
    text := ("привет"), entities := [], reply_to := none }

/-! ## Helper lemmas about the settings scan and the handler -/

theorem patSearch_none_of_not_isSome {p : Pattern} {t : String}
    (h : (patSearch p t).isSome = false) : patSearch p t = none := by
  cases hp : patSearch p t with
  | none => rfl
  | some c => rw [hp] at h; simp at h

theorem detectGo_of_no_match :
    ∀ (L : List (Pattern × SettingsAction × Int)) (text : String) (uid now : Int)
      (st : DBState) (acc : List String),
      (∀ e ∈ L, patSearch e.1 text = none) →
      detectGo L text uid now st acc = (st, acc) := by
  intro L
  induction L with
  | nil => intro text uid now st acc _; rfl
  | cons e rest ih =>
      intro text uid now st acc h
      have he : patSearch e.1 text = none := h e (by simp)
      have hrest : ∀ x ∈ rest, patSearch x.1 text = none := by
        intro x hx; exact h x (by simp [hx])
      simp only [detectGo, he]
      exact ih text uid now st acc hrest

/-- When no table entry matches, _detect_and_apply_settings returns none. -/
theorem detect_none {text : String} (h : settingsMatched text = false) :
    ∀ (uid now : Int) (st : DBState),
      _detect_and_apply_settings text uid now st = none := by
  intro uid now st
  have hall : ∀ e ∈ SETTINGS_PATTERNS, patSearch e.1 text = none := by
    intro e he
    have := List.any_eq_false.mp h e he
    exact patSearch_none_of_not_isSome (by simpa using this)
  unfold _detect_and_apply_settings
  rw [detectGo_of_no_match SETTINGS_PATTERNS text uid now st [] hall]
  simp

theorem detectGo_acc_prefix :
    ∀ (L : List (Pattern × SettingsAction × Int)) (text : String) (uid now : Int)
      (st : DBState) (acc : List String),
      ∃ tail, (detectGo L text uid now st acc).2 = acc ++ tail := by
  intro L
  induction L with
  | nil => intro text uid now st acc; exact ⟨[], by simp [detectGo]⟩
  | cons e rest ih =>
      intro text uid now st acc
      simp only [detectGo]
      cases hp : patSearch e.1 text with
      | none => exact ih text uid now st acc
      | some cap =>
          obtain ⟨tail, ht⟩ :=
            ih text uid now (applyAction e.2.1 e.2.2 cap uid now st).1
              (acc ++ [(applyAction e.2.1 e.2.2 cap uid now st).2])
          exact ⟨(applyAction e.2.1 e.2.2 cap uid now st).2 :: tail, by simp [ht]⟩

theorem detectGo_ne_nil_of_match :
    ∀ (L : List (Pattern × SettingsAction × Int)) (text : String) (uid now : Int)
      (st : DBState) (acc : List String),
      (∃ e ∈ L, (patSearch e.1 text).isSome = true) →
      (detectGo L text uid now st acc).2 ≠ [] := by
  intro L
  induction L with
  | nil => intro text uid now st acc h; obtain ⟨e, he, _⟩ := h; simp at he
  | cons e rest ih =>
      intro text uid now st acc h
      simp only [detectGo]
      cases hp : patSearch e.1 text with
      | some cap =>
          obtain ⟨tail, ht⟩ :=
            detectGo_acc_prefix rest text uid now (applyAction e.2.1 e.2.2 cap uid now st).1
              (acc ++ [(applyAction e.2.1 e.2.2 cap uid now st).2])
          rw [ht]
          simp
      | none =>
          obtain ⟨x, hx, hxs⟩ := h
          rcases List.mem_cons.mp hx with h1 | h2
          · subst h1; rw [hp] at hxs; simp at hxs
          · exact ih text uid now st acc ⟨x, h2, hxs⟩

/-- When some table entry matches, _detect_and_apply_settings acknowledges. -/
theorem detect_some {text : String} (h : settingsMatched text = true) :
    ∀ (uid now : Int) (st : DBState),
      ∃ p, _detect_and_apply_settings text uid now st = some p := by
  intro uid now st
  have hex : ∃ e ∈ SETTINGS_PATTERNS, (patSearch e.1 text).isSome = true :=
    List.any_eq_true.mp h
  have hne := detectGo_ne_nil_of_match SETTINGS_PATTERNS text uid now st [] hex
  unfold _detect_and_apply_settings
  simp only [hne, if_false, reduceIte]
  exact ⟨_, rfl⟩

/-- No settings action touches message_count. -/
theorem applyAction_message_count (a : SettingsAction) (delta : Int) (cap : Option Nat)
    (uid now : Int) (st : DBState) :
    (applyAction a delta cap uid now st).1.chat.message_count = st.chat.message_count := by
  cases a <;> rfl

theorem detectGo_message_count :
    ∀ (L : List (Pattern × SettingsAction × Int)) (text : String) (uid now : Int)
      (st : DBState) (acc : List String),
      (detectGo L text uid now st acc).1.chat.message_count = st.chat.message_count := by
  intro L
  induction L with
  | nil => intro text uid now st acc; rfl
  | cons e rest ih =>
      intro text uid now st acc
      simp only [detectGo]
      cases hp : patSearch e.1 text with
      | none => exact ih text uid now st acc
      | some cap =>
          rw [ih text uid now _ _]
          exact applyAction_message_count e.2.1 e.2.2 cap uid now st

theorem detect_message_count {text : String} {uid now : Int} {st : DBState}
    {p : String × DBState} (h : _detect_and_apply_settings text uid now st = some p) :
    p.2.chat.message_count = st.chat.message_count := by
  unfold _detect_and_apply_settings at h
  by_cases hc : (detectGo SETTINGS_PATTERNS text uid now st []).2 = []
  · simp [hc] at h
  · simp only [hc, if_false, reduceIte, Option.some_inj] at h
    rw [← h]
    exact detectGo_message_count SETTINGS_PATTERNS text uid now st []

/-- The bio-collection branch implies a direct mention (it requires a reply
to the engine's own message). -/
theorem bio_false_of_not_mention {b : BotInfo} {msg : GMessage}
    (h : _is_direct_mention b msg = false) : bioReplyPath b msg = false := by
  unfold _is_direct_mention at h
  rcases Bool.or_eq_false_iff.mp h with ⟨h1, _⟩
  unfold bioReplyPath
  cases hr : msg.reply_to with
  | none => rfl
  | some rt =>
      rw [hr] at h1
      have h1' : (rt.from_id == some b.id) = false := h1
      simp [h1']

theorem observe_chat (msg : GMessage) (now : Int) (st : DBState) :
    (observeMessage msg now st).chat = { st.chat with last_activity := now } := rfl

/-! ## The clamped-policy invariant (claim C4) -/

/-- The bound invariant of the spec: humor and length in [1,10],
frequency at least 1. -/
def PolicyBounds (c : ChatRow) : Prop :=
  1 ≤ c.humor_level ∧ c.humor_level ≤ 10 ∧
  1 ≤ c.max_response_lines ∧ c.max_response_lines ≤ 10 ∧
  1 ≤ c.reply_frequency

instance : DecidablePred PolicyBounds := fun c => by
  unfold PolicyBounds; infer_instance

theorem applyAction_bounds {st : DBState} (a : SettingsAction) {delta : Int}
    (cap : Option Nat) (uid now : Int)
    (hd : 0 ≤ delta) (h : PolicyBounds st.chat) :
    PolicyBounds (applyAction a delta cap uid now st).1.chat := by
  unfold PolicyBounds at h ⊢
  cases a <;>
    simp [applyAction, set_humor_level, set_max_response_lines,
      set_reply_frequency_raw, increase_reply_frequency, set_user_ignore] <;>
    omega

/-- Every magnitude of the settings table is nonnegative. -/
theorem table_deltas : ∀ e ∈ SETTINGS_PATTERNS, (0 : Int) ≤ e.2.2 := by decide

theorem detectGo_bounds :
    ∀ (L : List (Pattern × SettingsAction × Int)) (text : String) (uid now : Int)
      (st : DBState) (acc : List String),
      (∀ e ∈ L, (0 : Int) ≤ e.2.2) → PolicyBounds st.chat →
      PolicyBounds ((detectGo L text uid now st acc).1.chat) := by
  intro L
  induction L with
  | nil => intro text uid now st acc _ h; exact h
  | cons e rest ih =>
      intro text uid now st acc hd h
      simp only [detectGo]
      cases hp : patSearch e.1 text with
      | none => exact ih text uid now st acc (fun x hx => hd x (by simp [hx])) h
      | some cap =>
          exact ih text uid now _ _ (fun x hx => hd x (by simp [hx]))
            (applyAction_bounds e.2.1 cap uid now (hd e (by simp)) h)

theorem detect_bounds {text : String} {uid now : Int} {st : DBState}
    {p : String × DBState} (hp : _detect_and_apply_settings text uid now st = some p)
    (h : PolicyBounds st.chat) : PolicyBounds p.2.chat := by
  unfold _detect_and_apply_settings at hp
  by_cases hc : (detectGo SETTINGS_PATTERNS text uid now st []).2 = []
  · simp [hc] at hp
  · simp only [hc, if_false, reduceIte, Option.some_inj] at hp
    rw [← hp]
    exact detectGo_bounds SETTINGS_PATTERNS text uid now st [] table_deltas h

theorem ogm_bounds (b : BotInfo) (msg : GMessage) (now : Int) (st : DBState)
    (h : PolicyBounds st.chat) :
    PolicyBounds ((on_group_message b msg now st).2.chat) := by
  have hobs : PolicyBounds (observeMessage msg now st).chat := h
  by_cases hbot : msg.from_is_bot = true
  · simp only [on_group_message, hbot, if_true, reduceIte]
    exact h
  · rw [Bool.not_eq_true] at hbot
    by_cases hbio : bioReplyPath b msg = true
    · simp only [on_group_message, hbot, hbio, Bool.false_eq_true, if_true, if_false, reduceIte]
      exact hobs
    · rw [Bool.not_eq_true] at hbio
      cases hd : _detect_and_apply_settings msg.text msg.from_id now (observeMessage msg now st) with
      | some p =>
          simp only [on_group_message, hbot, hbio, Bool.false_eq_true, if_false, reduceIte, hd]
          exact detect_bounds hd hobs
      | none =>
          by_cases hm : _is_direct_mention b msg = true
          · simp only [on_group_message, hbot, hbio, Bool.false_eq_true, if_false, reduceIte,
              hd, hm, if_true]
            exact hobs
          · rw [Bool.not_eq_true] at hm
            simp only [on_group_message, hbot, hbio, Bool.false_eq_true, if_false, reduceIte,
              hd, hm]
            split
            · exact hobs
            · exact hobs

/-- The mutation surface of the engine for one chat: a full group message
(which may carry natural-language adjustments), the two direct setters, and
the admin /frequency command. -/
inductive EngineOp where
  | group (b : BotInfo) (msg : GMessage) (now : Int)
  | setHumor (level : Int)
  | setLines (lines : Int)
  | adminFrequency (n : Int)

def applyOp (st : DBState) : EngineOp → DBState
  | EngineOp.group b msg now => (on_group_message b msg now st).2
  | EngineOp.setHumor l => set_humor_level st l
  | EngineOp.setLines l => set_max_response_lines st l
  | EngineOp.adminFrequency n => cmd_frequency st n

/-! ## Auxiliary lemmas for the ignore entry and the image counter -/

theorem ignoreDays_bounds (cap : Option Nat) :
    1 ≤ ignoreDays cap ∧ ignoreDays cap ≤ 30 := by
  cases cap with
  | none => decide
  | some n =>
      unfold ignoreDays
      exact ⟨le_max_left _ _, max_le (by norm_num) (min_le_left _ _)⟩

theorem inc_img_count (log : ImgLog) (today : Int) :
    get_image_gen_count (increment_image_gen_count log today).2 today =
      get_image_gen_count log today + 1 := by
  unfold increment_image_gen_count get_image_gen_count
  cases h : log today <;> simp [h]

theorem inc_img_other (log : ImgLog) (today d : Int) (hd : d ≠ today) :
    (increment_image_gen_count log today).2 d = log d := by
  unfold increment_image_gen_count
  cases h : log today <;> simp [h, hd]

theorem incTimes_count :
    ∀ (n : Nat) (log : ImgLog) (today : Int),
      get_image_gen_count (incrementTimes n log today) today =
        get_image_gen_count log today + n := by
  intro n
  induction n with
  | zero => intro log today; simp [incrementTimes]
  | succ m ih =>
      intro log today
      simp only [incrementTimes]
      rw [ih, inc_img_count]
      omega

theorem incTimes_other :
    ∀ (n : Nat) (log : ImgLog) (today d : Int), d ≠ today →
      incrementTimes n log today d = log d := by
  intro n
  induction n with
  | zero => intro log today d _; rfl
  | succ m ih =>
      intro log today d hd
      simp only [incrementTimes]
      rw [ih _ _ _ hd, inc_img_other _ _ _ hd]

/-! ## Further concrete instances for scenarios, witnesses and
counterexamples -/

/-- A chat whose counter already stands at 3. -/
def st3 : DBState :=
  { initialState with chat := { initialState.chat with message_count := 3 } }

/-- A chat whose max_response_lines already sits at the lower clamp. -/
def stLines1 : DBState :=
  { initialState with chat := { initialState.chat with max_response_lines := 1 } }

/-- A direct address (reply to an engine message) whose text also matches a
settings pattern. -/
def cexMsg : GMessage :=
  { from_id := 2, from_is_bot := false, from_username := some ("bob"),
    text := ("заткнись"), entities := [],
    reply_to := some { from_id := some 999, text := ("Бинго!") } }

/-- A direct address (reply to an engine message without "досье") whose text
matches nothing. -/
def mentionPlainMsg : GMessage :=
  { from_id := 2, from_is_bot := false, from_username := some ("bob"),
    text := ("привет"), entities := [],
    reply_to := some { from_id := some 999, text := ("ок") } }

/-- A message matching one frequency-down and one length-down pattern. -/
def bothMsg : GMessage :=
  { from_id := 1, from_is_bot := false, from_username := some ("alice"),
    text := ("пиши короче, заткнись"), entities := [], reply_to := none }

/-- A message matching the frequency-down pattern alone. -/
def freqDownMsg : GMessage :=
  { from_id := 1, from_is_bot := false, from_username := some ("alice"),
    text := ("пиши реже"), entities := [], reply_to := none }

/-- A chat with a single member who has neither bio nor user name. -/
def cexPokeState : DBState :=
  { users := fun u => if u = 1 then some { username := (""), bio_text := ("") } else none,
    chat := freshChat (-100) 0, members := [1], ignoreUntil := fun _ => none, msgs := [] }

def emptyLog : ImgLog := fun _ => none

/-- Due at time 10: scheduled for 8, last activity 5 before that. -/
def rowDue : ChatRow :=
  { chat_id := -1, message_count := 0, reply_frequency := 5, humor_level := 5,
    max_response_lines := 3, last_activity := 5, next_poke_at := 8 }

/-- Not due at time 10: activity at 20 is after the poke scheduled for 9. -/
def rowIdle : ChatRow :=
  { chat_id := -2, message_count := 0, reply_frequency := 5, humor_level := 5,
    max_response_lines := 3, last_activity := 20, next_poke_at := 9 }

/-- A users table holding one record with a bio. -/
def wUsers : Int → Option UserRec :=
  fun u => if u = 5 then some { username := ("old"), bio_text := ("likes chess") } else none

/-- An operation sequence exercising every mutation path, with out-of-range
setter arguments. -/
def c4ops : List EngineOp :=
  [EngineOp.group b0 freqDownMsg 0, EngineOp.setHumor 42, EngineOp.setLines (-7),
   EngineOp.adminFrequency 0, EngineOp.group b0 bothMsg 1,
   EngineOp.group b0 freqDownMsg 2, EngineOp.adminFrequency 9]

/-! ## The claims -/

/-- C1: a group text message from a non-bot that is no direct mention and
matches no settings pattern makes the handler increment messageCount and
reply iff the incremented count reaches replyFrequency, resetting the
counter to 0 exactly when it replies; and on a fresh chat (count 0,
frequency 5) nine such messages draw replies as no,no,no,no,yes,no,no,no,no. -/
theorem C1_counter_cadence :
    (∀ (b : BotInfo) (msg : GMessage) (now : Int) (st : DBState),
      msg.from_is_bot = false →
      settingsMatched msg.text = false →
      _is_direct_mention b msg = false →
      (((on_group_message b msg now st).1 ≠ []) ↔
          st.chat.reply_frequency ≤ st.chat.message_count + 1) ∧
      ((on_group_message b msg now st).1 = [] ∨
        (on_group_message b msg now st).1 = [Reply.sheldon]) ∧
      (on_group_message b msg now st).2.chat.message_count =
        (if st.chat.reply_frequency ≤ st.chat.message_count + 1 then 0
         else st.chat.message_count + 1))
    ∧ (runMessages b0 (List.replicate 9 plainMsg) 0 initialState).1 =
        [false, false, false, false, true, false, false, false, false] := by
  constructor
  · intro b msg now st hbot hset hment
    have hbio := bio_false_of_not_mention hment
    have hdet := detect_none hset msg.from_id now (observeMessage msg now st)
    simp only [on_group_message, hbot, hbio, hment, Bool.false_eq_true, if_false, reduceIte,
      hdet, increment_and_get, reset_message_count, observe_chat]
    by_cases hc : st.chat.reply_frequency ≤ st.chat.message_count + 1
    · simp [hc]
    · simp [hc]
  · decide

theorem C1_counter_cadence_witness :
    (((on_group_message b0 plainMsg 0 st3).1 ≠ []) ↔
        st3.chat.reply_frequency ≤ st3.chat.message_count + 1) ∧
    ((on_group_message b0 plainMsg 0 st3).1 = [] ∨
      (on_group_message b0 plainMsg 0 st3).1 = [Reply.sheldon]) ∧
    (on_group_message b0 plainMsg 0 st3).2.chat.message_count =
      (if st3.chat.reply_frequency ≤ st3.chat.message_count + 1 then 0
       else st3.chat.message_count + 1) :=
  C1_counter_cadence.1 b0 plainMsg 0 st3 (by decide) (by decide) (by decide)

/-- C2 (amended): a direct-address group message that does not enter the
bio-collection branch and matches no settings pattern always produces
exactly one reply and resets messageCount to 0, whatever the counter held.
(The claim as stated, over every direct address, fails: the settings branch
and the bio branch run first and do not reset the counter.) -/
theorem C2_direct_mention :
    ∀ (b : BotInfo) (msg : GMessage) (now : Int) (st : DBState),
      msg.from_is_bot = false →
      settingsMatched msg.text = false →
      bioReplyPath b msg = false →
      _is_direct_mention b msg = true →
      (on_group_message b msg now st).1 = [Reply.sheldon] ∧
      (on_group_message b msg now st).2.chat.message_count = 0 := by
  intro b msg now st hbot hset hbio hment
  have hdet := detect_none hset msg.from_id now (observeMessage msg now st)
  simp only [on_group_message, hbot, hbio, hment, Bool.false_eq_true, if_false, reduceIte,
    hdet, reset_message_count]
  simp

theorem C2_direct_mention_witness :
    (on_group_message b0 mentionPlainMsg 0 st3).1 = [Reply.sheldon] ∧
    (on_group_message b0 mentionPlainMsg 0 st3).2.chat.message_count = 0 :=
  C2_direct_mention b0 mentionPlainMsg 0 st3 (by decide) (by decide) (by decide) (by decide)

/-- C2 counterexample: cexMsg replies to an engine message (so it is a
direct address) but its text matches a settings pattern; the handler
answers with the settings acknowledgment and leaves messageCount at 3
instead of resetting it to 0. -/
theorem C2_direct_mention_counterexample :
    _is_direct_mention b0 cexMsg = true ∧
    (on_group_message b0 cexMsg 0 st3).2.chat.message_count = 3 ∧
    ¬ (on_group_message b0 cexMsg 0 st3).2.chat.message_count = 0 := by decide

/-- C3: when any settings pattern matches (every table entry is tested),
the handler's whole output is the single acknowledgment — no completion
call, counter untouched; the concrete text matching one frequency-down and
one length-down pattern yields one acknowledgment naming both effects once
and applies both; a text matching two length-down patterns that produce
the same description lists it once (deduplication). -/
theorem C3_settings_scan :
    (∀ (b : BotInfo) (msg : GMessage) (now : Int) (st : DBState),
      msg.from_is_bot = false →
      bioReplyPath b msg = false →
      settingsMatched msg.text = true →
      (∃ s, (on_group_message b msg now st).1 = [Reply.settingsAck s]) ∧
      (on_group_message b msg now st).2.chat.message_count = st.chat.message_count)
    ∧ ((_detect_and_apply_settings ("пиши короче, заткнись") 1 0 initialState).map
        (fun p => p.1) =
        some (("Принято. Скорректировал алгоритмы: частота ответов → каждые 10 сообщений, ") ++
          ("длина ответа → 2 предл.. Надеюсь, это удовлетворит ваши социальные требования.")))
    ∧ ((_detect_and_apply_settings ("пиши короче, заткнись") 1 0 initialState).map
        (fun p => (p.2.chat.reply_frequency, p.2.chat.max_response_lines)) = some (10, 2))
    ∧ ((_detect_and_apply_settings ("пиши короче и отвечай кратко") 1 0 stLines1).map
        (fun p => p.1) =
        some (("Принято. Скорректировал алгоритмы: длина ответа → 1 предл.. ") ++
          ("Надеюсь, это удовлетворит ваши социальные требования."))) := by
  refine ⟨?_, by decide, by decide, by decide⟩
  intro b msg now st hbot hbio hset
  obtain ⟨p, hp⟩ := detect_some hset msg.from_id now (observeMessage msg now st)
  have hmc := detect_message_count hp
  simp only [on_group_message, hbot, hbio, Bool.false_eq_true, if_false, reduceIte, hp]
  constructor
  · exact ⟨p.1, rfl⟩
  · rw [hmc, observe_chat]

theorem C3_settings_scan_witness :
    (∃ s, (on_group_message b0 bothMsg 0 initialState).1 = [Reply.settingsAck s]) ∧
    (on_group_message b0 bothMsg 0 initialState).2.chat.message_count =
      initialState.chat.message_count :=
  C3_settings_scan.1 b0 bothMsg 0 initialState (by decide) (by decide) (by decide)

/-- C4: the clamped policy fields stay in bounds — humorLevel in [1,10],
maxResponseLines in [1,10], replyFrequency at least 1 — on the fresh chat
and after every sequence of engine operations (group messages carrying
natural-language adjustments, the direct setters, the admin frequency
command), however long. -/
theorem C4_policy_bounds :
    PolicyBounds (freshChat (-100) 0) ∧
    (∀ (ops : List EngineOp) (st : DBState), PolicyBounds st.chat →
      PolicyBounds ((ops.foldl applyOp st).chat)) := by
  constructor
  · decide
  · intro ops
    induction ops with
    | nil => intro st h; exact h
    | cons op rest ih =>
        intro st h
        apply ih
        cases op with
        | group b msg now => exact ogm_bounds b msg now st h
        | setHumor l =>
            unfold PolicyBounds at h ⊢
            simp [applyOp, set_humor_level]
            omega
        | setLines l =>
            unfold PolicyBounds at h ⊢
            simp [applyOp, set_max_response_lines]
            omega
        | adminFrequency n =>
            show PolicyBounds (cmd_frequency st n).chat
            unfold cmd_frequency set_reply_frequency_raw
            split
            · exact h
            · unfold PolicyBounds at h ⊢
              simp
              omega

theorem C4_policy_bounds_witness :
    PolicyBounds ((c4ops.foldl applyOp initialState).chat) :=
  C4_policy_bounds.2 c4ops initialState (by decide)

/-- C5: get_chats_due_for_poke returns exactly the rows with
next_poke_at <= now and last_activity < next_poke_at, and hence never a
chat whose last activity is at or after its scheduled poke. -/
theorem C5_due_for_poke :
    ∀ (rows : List ChatRow) (now : Int) (r : ChatRow),
      (r ∈ get_chats_due_for_poke rows now ↔
        (r ∈ rows ∧ r.next_poke_at ≤ now ∧ r.last_activity < r.next_poke_at)) ∧
      (r ∈ get_chats_due_for_poke rows now → r.last_activity < r.next_poke_at) := by
  intro rows now r
  constructor
  · simp [get_chats_due_for_poke, List.mem_filter, and_assoc]
  · intro h
    have := (List.mem_filter.mp h).2
    simp at this
    exact this.2

theorem C5_due_for_poke_witness :
    rowDue ∈ get_chats_due_for_poke [rowDue, rowIdle] 10 ∧
    rowDue.last_activity < rowDue.next_poke_at :=
  ⟨by decide, (C5_due_for_poke [rowDue, rowIdle] 10 rowDue).2 (by decide)⟩

/-- C6: the ignore_me branch clamps the extracted day count to [1,30]
(45 becomes 30), defaults to 1 when the capture is absent, stores
ignoreUntil = now + days·86400 for the sender, after which is_user_ignored
holds at once and fails for every time at or past ignoreUntil; the full
pipeline on "не обращайся ко мне 45 дн" stores a 30-day entry. -/
theorem C6_ignore_command :
    (∀ (cap : Option Nat) (uid now : Int) (st : DBState),
      1 ≤ ignoreDays cap ∧ ignoreDays cap ≤ 30 ∧
      (cap = none → ignoreDays cap = 1) ∧
      (∀ n, cap = some n → ignoreDays cap = max 1 (min 30 (n : Int))) ∧
      (applyAction SettingsAction.ignore_me 0 cap uid now st).1.ignoreUntil uid =
        some (now + ignoreDays cap * DAY_SECONDS) ∧
      is_user_ignored (applyAction SettingsAction.ignore_me 0 cap uid now st).1 uid now = true ∧
      (∀ t, now + ignoreDays cap * DAY_SECONDS ≤ t →
        is_user_ignored (applyAction SettingsAction.ignore_me 0 cap uid now st).1 uid t = false))
    ∧ ignoreDays (some 45) = 30
    ∧ ((_detect_and_apply_settings ("не обращайся ко мне 45 дн") 7 1000 initialState).map
        (fun p => p.2.ignoreUntil 7) = some (some 2593000)) := by
  refine ⟨?_, by decide, by decide⟩
  intro cap uid now st
  obtain ⟨hd1, hd30⟩ := ignoreDays_bounds cap
  refine ⟨hd1, hd30, ?_, ?_, ?_, ?_, ?_⟩
  · intro h; subst h; rfl
  · intro n h; subst h; rfl
  · simp [applyAction, set_user_ignore]
  · simp [is_user_ignored, applyAction, set_user_ignore]
    unfold DAY_SECONDS at *
    omega
  · intro t ht
    simp [is_user_ignored, applyAction, set_user_ignore]
    unfold DAY_SECONDS at *
    omega

theorem C6_ignore_command_witness :
    is_user_ignored (applyAction SettingsAction.ignore_me 0 (some 45) 7 1000 initialState).1
      7 1000 = true ∧
    is_user_ignored (applyAction SettingsAction.ignore_me 0 (some 45) 7 1000 initialState).1
      7 2593000 = false ∧
    ignoreDays none = 1 :=
  ⟨(C6_ignore_command.1 (some 45) 7 1000 initialState).2.2.2.2.2.1,
   (C6_ignore_command.1 (some 45) 7 1000 initialState).2.2.2.2.2.2 2593000 (by decide),
   (C6_ignore_command.1 none 7 0 initialState).2.2.1 rfl⟩

/-- C7: image_gen_allowed holds iff today's count is strictly below the
limit 10 with an absent row counting 0; increment_image_gen_count creates
the row at 1 or adds 1, returns the new count and touches no other date;
ten increments starting from an absent row make allowed false for that
date while any other row-less date stays allowed. -/
theorem C7_daily_image_limit :
    ∀ (log : ImgLog) (today : Int),
      (image_gen_allowed log today = true ↔
        get_image_gen_count log today < IMAGE_GEN_DAILY_LIMIT) ∧
      (log today = none → get_image_gen_count log today = 0) ∧
      ((increment_image_gen_count log today).1 = get_image_gen_count log today + 1) ∧
      ((increment_image_gen_count log today).2 today =
        some (get_image_gen_count log today + 1)) ∧
      (∀ d, d ≠ today → (increment_image_gen_count log today).2 d = log d) ∧
      (∀ n : Nat, get_image_gen_count (incrementTimes n log today) today =
        get_image_gen_count log today + n) ∧
      (log today = none →
        image_gen_allowed (incrementTimes 10 log today) today = false) ∧
      (∀ d, d ≠ today → log d = none →
        image_gen_allowed (incrementTimes 10 log today) d = true) := by
  intro log today
  refine ⟨by simp [image_gen_allowed], ?_, ?_, ?_, ?_, ?_, ?_, ?_⟩
  · intro h; simp [get_image_gen_count, h]
  · unfold increment_image_gen_count get_image_gen_count
    cases h : log today <;> simp [h]
  · unfold increment_image_gen_count get_image_gen_count
    cases h : log today <;> simp [h]
  · exact fun d hd => inc_img_other log today d hd
  · exact fun n => incTimes_count n log today
  · intro h
    have hc := incTimes_count 10 log today
    have h0 : get_image_gen_count log today = 0 := by simp [get_image_gen_count, h]
    simp only [image_gen_allowed, IMAGE_GEN_DAILY_LIMIT, decide_eq_false_iff_not, not_lt]
    rw [hc, h0]
    norm_num
  · intro d hd h
    have := incTimes_other 10 log today d hd
    simp [image_gen_allowed, get_image_gen_count, this, h, IMAGE_GEN_DAILY_LIMIT]

theorem C7_daily_image_limit_witness :
    image_gen_allowed (incrementTimes 10 emptyLog 0) 0 = false ∧
    image_gen_allowed (incrementTimes 10 emptyLog 0) 1 = true ∧
    (increment_image_gen_count emptyLog 0).1 = get_image_gen_count emptyLog 0 + 1 :=
  ⟨(C7_daily_image_limit emptyLog 0).2.2.2.2.2.2.1 rfl,
   (C7_daily_image_limit emptyLog 0).2.2.2.2.2.2.2 1 (by decide) rfl,
   (C7_daily_image_limit emptyLog 0).2.2.1⟩

/-- C8 (amended): both poke candidate pools exclude every currently ignored
user; the first branch fires when pool (a) is nonempty and the 0.6 coin
came up — but the drawn member receives the bio question only if they have
a known handle, otherwise the branch sends nothing and selection falls to
the 0.55/pool-(b) rule, then to the generic silence breaker. (The claim as
stated fails: a drawn no-bio member without a handle gets no question.) -/
theorem C8_poke_selection :
    ∀ (st : DBState) (now : Int) (c1 : Bool) (i1 : Nat) (c2 : Bool) (i2 : Nat),
      (∀ m ∈ pokePoolA st now,
        is_user_ignored st m.1 now = false ∧ m.2.bio_text = ("")) ∧
      (∀ m ∈ pokePoolB st now,
        is_user_ignored st m.1 now = false ∧ m.2.username ≠ ("")) ∧
      pokeSelect st now c1 i1 c2 i2 =
        (if pokePoolA st now ≠ [] ∧ c1 = true ∧
            (choice (pokePoolA st now) i1).2.username ≠ ("") then
          PokeOutcome.bioQuestion (choice (pokePoolA st now) i1).1
            (choice (pokePoolA st now) i1).2.username
        else if pokePoolB st now ≠ [] ∧ c2 = true then
          PokeOutcome.personalQuestion (choice (pokePoolB st now) i2).1
            (choice (pokePoolB st now) i2).2.username
        else PokeOutcome.generic) := by
  intro st now c1 i1 c2 i2
  refine ⟨?_, ?_, ?_⟩
  · intro m hm
    simp only [pokePoolA, get_members_without_bio, List.mem_filter] at hm
    obtain ⟨⟨_, hb⟩, hi⟩ := hm
    simp at hb hi
    exact ⟨hi, hb⟩
  · intro m hm
    simp only [pokePoolB, List.mem_filter] at hm
    obtain ⟨_, hcond⟩ := hm
    simp at hcond
    exact ⟨hcond.2, hcond.1⟩
  · unfold pokeSelect
    by_cases hc1 : c1 = true
    · by_cases hA : pokePoolA st now = []
      · simp [hA, hc1]
      · by_cases hu : (choice (pokePoolA st now) i1).2.username = ("")
        · simp [hA, hc1, hu, List.isEmpty_iff]
        · simp [hA, hc1, hu, List.isEmpty_iff]
    · by_cases hA : pokePoolA st now = []
      · simp [hA, hc1]
      · simp [hA, hc1, List.isEmpty_iff]

theorem C8_poke_selection_witness :
    is_user_ignored cexPokeState 1 0 = false :=
  ((C8_poke_selection cexPokeState 0 true 0 true 0).1
    (1, { username := (""), bio_text := ("") }) (by decide)).1

/-- C8 counterexample: one known member, no bio, no handle; pool (a) is
nonempty and the 0.6 coin fires, yet the outcome is the generic silence
breaker — the drawn member receives no personalized bio question. -/
theorem C8_poke_counterexample :
    pokePoolA cexPokeState 0 = [(1, { username := (""), bio_text := ("") })] ∧
    pokeSelect cexPokeState 0 true 0 true 0 = PokeOutcome.generic := by decide

/-- C9: upsert_user on an existing record updates only the username; the
stored bio is unchanged whatever username value arrives, and other users'
rows are untouched. -/
theorem C9_upsert_preserves_bio :
    ∀ (users : Int → Option UserRec) (uid : Int) (uname : Option String) (r : UserRec),
      users uid = some r →
      (upsert_user users uid uname) uid =
        some { username := uname.getD (""), bio_text := r.bio_text } ∧
      (∀ u, u ≠ uid → (upsert_user users uid uname) u = users u) := by
  intro users uid uname r h
  constructor
  · simp [upsert_user, h]
  · intro u hu
    simp [upsert_user, hu]

theorem C9_upsert_preserves_bio_witness :
    (upsert_user wUsers 5 (some ("new"))) 5 =
      some { username := ("new"), bio_text := ("likes chess") } :=
  (C9_upsert_preserves_bio wUsers 5 (some ("new"))
    { username := ("old"), bio_text := ("likes chess") } (by decide)).1

/-- C10: inside the image-edit path, the daily counter is incremented only
after the generation returns a usable reference: on failure the error
reply is sent and the log is unchanged (failed generations never consume
quota); on success the counter grows by one. -/
theorem C10_failed_generation_no_quota :
    ∀ (log : ImgLog) (today : Int) (gen : Option String),
      image_gen_allowed log today = true →
      (gen = none → photoEditFlow log today gen =
        ([PhotoReply.waiting (IMAGE_GEN_DAILY_LIMIT - get_image_gen_count log today),
          PhotoReply.genError], log)) ∧
      (∀ u, gen = some u →
        (photoEditFlow log today gen).1 =
          [PhotoReply.waiting (IMAGE_GEN_DAILY_LIMIT - get_image_gen_count log today),
           PhotoReply.resultPhoto (get_image_gen_count log today + 1)] ∧
        get_image_gen_count (photoEditFlow log today gen).2 today =
          get_image_gen_count log today + 1) := by
  intro log today gen hallow
  constructor
  · intro h; subst h
    simp [photoEditFlow, hallow]
  · intro u h; subst h
    simp only [photoEditFlow, hallow, Bool.not_true, Bool.false_eq_true, if_false, reduceIte]
    rw [inc_img_count]
    exact ⟨rfl, rfl⟩

theorem C10_failed_generation_no_quota_witness :
    photoEditFlow emptyLog 0 none =
      ([PhotoReply.waiting (IMAGE_GEN_DAILY_LIMIT - get_image_gen_count emptyLog 0),
        PhotoReply.genError], emptyLog) ∧
    get_image_gen_count (photoEditFlow emptyLog 0 (some ("u"))).2 0 =
      get_image_gen_count emptyLog 0 + 1 :=
  ⟨(C10_failed_generation_no_quota emptyLog 0 none (by decide)).1 rfl,
   ((C10_failed_generation_no_quota emptyLog 0 (some ("u")) (by decide)).2 ("u") rfl).2⟩
